import Mathlib

/-!
Verification development for the XFIN portfolio stress-testing repository.

The Python modules `ticker_mapper.py`, `csv_utils.py` and `stress_testing.py`
are shallowly embedded below.  Python strings are modelled by `String`
(operating on their underlying `List Char`), numeric values by `ℚ`
(exact arithmetic in place of IEEE floats), pandas data frames by an
explicit column list plus rows of association lists, and Python `None`
by `Option`.
-/

namespace XFIN

/-! ### Python string primitives -/

/-- Python `needle in hay` substring test, on character lists. -/
def subL (needle : List Char) : List Char → Bool
  | [] => needle.isEmpty
  | c :: t => needle.isPrefixOf (c :: t) || subL needle t

/-- Strip characters satisfying `p` from the front and the back of a list
(Python `str.strip()` with `p` = whitespace). -/
def stripWith (p : Char → Bool) (l : List Char) : List Char :=
  ((l.dropWhile p).reverse.dropWhile p).reverse

/-- Python `str.split()` worker: `acc` is the current word, reversed. -/
def splitWsAux : List Char → List Char → List (List Char)
  | [], acc => if acc.isEmpty then [] else [acc.reverse]
  | c :: rest, acc =>
    if c.isWhitespace then
      if acc.isEmpty then splitWsAux rest []
      else acc.reverse :: splitWsAux rest []
    else splitWsAux rest (c :: acc)

def pyUpper (s : String) : String := ⟨s.data.map Char.toUpper⟩

def pyLower (s : String) : String := ⟨s.data.map Char.toLower⟩

def pyStrip (s : String) : String := ⟨stripWith Char.isWhitespace s.data⟩

/-- Python `needle in hay` on strings. -/
def pyIn (needle hay : String) : Bool := subL needle.data hay.data

/-- Python `str.split()` (split on whitespace runs, dropping empty words). -/
def pySplitWs (s : String) : List String := (splitWsAux s.data []).map String.mk

/-- First-match lookup in an association list; models lookup in a Python
`dict` whose insertion order is the list order. -/
def assocGet {α : Type} (k : String) : List (String × α) → Option α
  | [] => none
  | (k2, v) :: rest => if k = k2 then some v else assocGet k rest

/-- Python truthiness of an optional string: `None` and `""` are falsy. -/
def optTruthy : Option String → Bool
  | none => false
  | some s => !(s = "")

/-! ### ticker_mapper.py -/

/-- `STOCK_NAME_TO_TICKER` from `ticker_mapper.py`, in dict insertion order.
The key `POWER FINANCE CORPORATION` is written twice in the source with the
same value `PFC.NS`; a Python dict keeps the first position, so it appears
once here. -/
def STOCK_NAME_TO_TICKER : List (String × String) := [
  ("BANK OF BARODA", "BANKBARODA.NS"),
  ("BANK OF MAHARASHTRA", "MAHABANK.NS"),
  ("CENTRAL BANK OF INDIA", "CENTRALBK.NS"),
  ("CENTRAL BANK", "CENTRALBK.NS"),
  ("INDIAN BANK", "INDIANB.NS"),
  ("PUNJAB NATIONAL BANK", "PNB.NS"),
  ("STATE BANK OF INDIA", "SBIN.NS"),
  ("UNION BANK OF INDIA", "UNIONBANK.NS"),
  ("CANARA BANK", "CANBK.NS"),
  ("POWER GRID CORPORATION", "POWERGRID.NS"),
  ("POWER GRID", "POWERGRID.NS"),
  ("POWER FIN CORP", "PFC.NS"),
  ("POWER FINANCE CORPORATION", "PFC.NS"),
  ("NTPC", "NTPC.NS"),
  ("COAL INDIA", "COALINDIA.NS"),
  ("OIL AND NATURAL GAS CORP", "ONGC.NS"),
  ("OIL AND NATURAL GAS CORPORATION", "ONGC.NS"),
  ("OIL INDIA", "OIL.NS"),
  ("INDIAN OIL CORP", "IOC.NS"),
  ("INDIAN OIL CORPORATION", "IOC.NS"),
  ("BHARAT PETROLEUM", "BPCL.NS"),
  ("HINDUSTAN PETROLEUM CORP", "HINDPETRO.NS"),
  ("HINDUSTAN PETROLEUM", "HINDPETRO.NS"),
  ("GAIL (INDIA)", "GAIL.NS"),
  ("GAIL", "GAIL.NS"),
  ("NLC INDIA", "NLCINDIA.NS"),
  ("BHARTI AIRTEL", "BHARTIARTL.NS"),
  ("RELIANCE JIO", "RELIANCE.NS"),
  ("JIO FIN SERVICES", "JIOFIN.NS"),
  ("JIO", "JIOFIN.NS"),
  ("HINDUSTAN AERONAUTICS", "HAL.NS"),
  ("BHARAT ELECTRONICS", "BEL.NS"),
  ("MAZAGON DOCK SHIPBUILDERS", "MAZDOCK.NS"),
  ("BHARAT DYNAMICS", "BDL.NS"),
  ("TATA CONSULTANCY SERVICES", "TCS.NS"),
  ("INFOSYS", "INFY.NS"),
  ("WIPRO", "WIPRO.NS"),
  ("HCL TECHNOLOGIES", "HCLTECH.NS"),
  ("TECH MAHINDRA", "TECHM.NS"),
  ("TATA MOTORS", "TATAMOTORS.NS"),
  ("TATA MOTORS PASS VEH", "TATAMOTORS.NS"),
  ("MARUTI SUZUKI", "MARUTI.NS"),
  ("MAHINDRA & MAHINDRA", "M&M.NS"),
  ("NMDC", "NMDC.NS"),
  ("STEEL AUTHORITY OF INDIA", "SAIL.NS"),
  ("TATA STEEL", "TATASTEEL.NS"),
  ("HINDALCO", "HINDALCO.NS"),
  ("IRCON INTERNATIONAL", "IRCON.NS"),
  ("RITES", "RITES.NS"),
  ("REC", "RECLTD.NS"),
  ("CENTRAL DEPO SER (I)", "CDSL.NS"),
  ("CENTRAL DEPOSITORY SERVICES", "CDSL.NS"),
  ("SUZLON ENERGY", "SUZLON.NS"),
  ("SUZLON", "SUZLON.NS"),
  ("TATA CAPITAL", "TATACAPITAL.NS"),
  ("RELIANCE INDUSTRIES", "RELIANCE.NS"),
  ("RELIANCE", "RELIANCE.NS"),
  ("ITC", "ITC.NS"),
  ("HDFC BANK", "HDFCBANK.NS"),
  ("ICICI BANK", "ICICIBANK.NS"),
  ("AXIS BANK", "AXISBANK.NS"),
  ("GRAPHITE INDIA", "GRAPHITE.NS"),
  ("MADHAV COPPER", "MADHAV.NS"),
  ("MADHAV INFRA PROJECTS", "MADHAV.NS"),
  ("CHOICE INTERNATIONAL", "CHOICEIN.NS"),
  ("CHOICE", "CHOICEIN.NS"),
  ("TATAAML-TATSILV", "TATAAMC.NS")]

/-- `ISIN_TO_TICKER` from `ticker_mapper.py`. -/
def ISIN_TO_TICKER : List (String × String) := [
  ("INE028A01039", "BANKBARODA.NS"),
  ("INE483A01010", "CENTRALBK.NS"),
  ("INE562A01011", "INDIANB.NS"),
  ("INE160A01022", "PNB.NS"),
  ("INE062A01020", "SBIN.NS"),
  ("INE692A01016", "UNIONBANK.NS"),
  ("INE752E01010", "POWERGRID.NS"),
  ("INE733E01010", "NTPC.NS"),
  ("INE522F01014", "COALINDIA.NS"),
  ("INE213A01029", "ONGC.NS"),
  ("INE274J01014", "OIL.NS"),
  ("INE242A01010", "IOC.NS"),
  ("INE171A01029", "BPCL.NS"),
  ("INE094A01015", "HINDPETRO.NS"),
  ("INE129A01019", "GAIL.NS"),
  ("INE589A01014", "NLCINDIA.NS"),
  ("INE397D01024", "BHARTIARTL.NS"),
  ("INE002A01018", "RELIANCE.NS"),
  ("INE467B01029", "TCS.NS"),
  ("INE009A01021", "INFY.NS"),
  ("INE075A01022", "WIPRO.NS"),
  ("INE860A01027", "HCLTECH.NS"),
  ("INE040A01034", "HDFCBANK.NS"),
  ("INE090A01021", "ICICIBANK.NS"),
  ("INE238A01034", "AXISBANK.NS"),
  ("INE154A01025", "ITC.NS"),
  ("INE101A01026", "MARUTI.NS"),
  ("INE155A01022", "TATAMOTORS.NS"),
  ("INE101D01020", "NMDC.NS"),
  ("INE202A01019", "RECLTD.NS"),
  ("INE134E01011", "PFC.NS"),
  ("INE139A01034", "SUZLON.NS"),
  ("INE448A01013", "RITES.NS"),
  ("INE255A01020", "GRAPHITE.NS")]

/-- `suffixes_to_remove` from `get_ticker_from_name`. -/
def TICKER_SUFFIXES : List String := [
  " LIMITED", " LTD.", " LTD", " CORP.", " CORP", " CORPORATION",
  " INC.", " INC", " PVT.", " PVT", " PASS VEH LTD", " (INDIA)",
  " (I) LTD", " SERVICES", " SER (I) LTD"]

/-- One pass of the suffix-removal loop body: if `name_clean` ends with the
suffix, drop it and strip again (`name_clean[:-len(suffix)].strip()`). -/
def stripOneSuffix (nc suf : String) : String :=
  if suf.data.isSuffixOf nc.data then
    pyStrip ⟨nc.data.take (nc.data.length - suf.data.length)⟩
  else nc

/-- `name_clean` as computed by `get_ticker_from_name`:
`stock_name.upper().strip()` followed by the suffix-removal loop. -/
def normalizeTickerName (s : String) : String :=
  TICKER_SUFFIXES.foldl stripOneSuffix (pyStrip (pyUpper s))

/-- The `for key, ticker in STOCK_NAME_TO_TICKER.items()` fallback loop:
first entry whose key contains, or is contained in, `name_clean`. -/
def looseTickerScan (nc : String) : List (String × String) → Option String
  | [] => none
  | (k, v) :: rest => if pyIn k nc || pyIn nc k then some v else looseTickerScan nc rest

/-- `get_ticker_from_name` (ticker_mapper.py lines 159-195). -/
def get_ticker_from_name (stock_name : String) : Option String :=
  if stock_name = "" then none
  else
    match assocGet (normalizeTickerName stock_name) STOCK_NAME_TO_TICKER with
    | some t => some t
    | none => looseTickerScan (normalizeTickerName stock_name) STOCK_NAME_TO_TICKER

/-- `get_ticker_from_isin` (ticker_mapper.py lines 198-211). -/
def get_ticker_from_isin (isin : String) : Option String :=
  if isin = "" then none
  else assocGet (pyStrip (pyUpper isin)) ISIN_TO_TICKER

/-- Step 2 of `get_ticker`: `if isin: ticker = get_ticker_from_isin(isin)`,
with `None` when `isin` is falsy. -/
def tickerStep2 (isin : Option String) : Option String :=
  if optTruthy isin then get_ticker_from_isin (isin.getD "") else none

/-- Step 3 of `get_ticker`: `if stock_name: ticker = get_ticker_from_name(...)`. -/
def tickerStep3 (stock_name : Option String) : Option String :=
  if optTruthy stock_name then get_ticker_from_name (stock_name.getD "") else none

/-- `get_ticker` (ticker_mapper.py lines 214-258).  `none` models the
`IndexError` that `stock_name.split()[0]` would raise on an empty split;
the C6 theorem shows this branch is unreachable. -/
def get_ticker (stock_name isin symbol : Option String) : Option String :=
  if optTruthy symbol && (pyIn ".NS" (symbol.getD "") || pyIn ".BO" (symbol.getD "")) then
    symbol
  else if optTruthy (tickerStep2 isin) then tickerStep2 isin
  else if optTruthy (tickerStep3 stock_name) then tickerStep3 stock_name
  else if optTruthy symbol then some (pyUpper (symbol.getD "") ++ ".NS")
  else if optTruthy stock_name then
    match pySplitWs (stock_name.getD "") with
    | [] => none
    | w :: _ => some (pyUpper w ++ ".NS")
  else some "UNKNOWN.NS"

/-! ### Data-frame model

A pandas `DataFrame` is modelled by its ordered column list and its rows;
each row is an association list from column name to cell.  A cell is an
exact rational, a string, or NaN (the only missing value recognised by
`pd.isna` that the claims exercise). -/

inductive Cell where
  | num (q : ℚ)
  | str (s : String)
  | nan
deriving DecidableEq

def Cell.isStr : Cell → Bool
  | Cell.str _ => true
  | _ => false

/-- Numeric view of a cell as used by pandas `Series.sum()`, which skips
NaN.  String cells never reach this point on the paths modelled (a string
in the value column raises and is handled by the `except` fallback). -/
def Cell.toQ : Cell → ℚ
  | Cell.num q => q
  | _ => 0

abbrev Row := List (String × Cell)

structure DF where
  cols : List String
  rows : List Row
deriving DecidableEq

/-- `row.get(col, default)` / `row[col]` on a pandas row. -/
def rowGet (r : Row) (c : String) (d : Cell) : Cell := (assocGet c r).getD d

/-! ### csv_utils.py -/

/-- The exact (dict-membership) arm of `find_column_case_insensitive`:
`pattern_lower in column_map_lower`. -/
def exactColMatch (cmap : List (String × String)) (p : String) : Option String :=
  assocGet (pyLower p) cmap

/-- The per-pattern substring fallback loop of `find_column_case_insensitive`:
first column whose lowered name contains, or is contained in, the lowered
pattern. -/
def looseColScan (pl : String) : List (String × String) → Option String
  | [] => none
  | (cl, co) :: rest => if pyIn pl cl || pyIn cl pl then some co else looseColScan pl rest

/-- The substring arm for a pattern, on the whole column map. -/
def looseColMatch (cmap : List (String × String)) (p : String) : Option String :=
  looseColScan (pyLower p) cmap

/-- `find_column_case_insensitive` (csv_utils.py lines 84-109).  Note the
substring fallback runs inside the per-pattern loop: for each pattern in
order, first the exact lookup, then the substring scan. -/
def find_column_case_insensitive (cmap : List (String × String)) : List String → Option String
  | [] => none
  | p :: ps =>
    match exactColMatch cmap p with
    | some co => some co
    | none =>
      match looseColMatch cmap p with
      | some co => some co
      | none => find_column_case_insensitive cmap ps

/-- The result record of `extract_holding_from_row` (the `raw_row` field of
the Python dict is not carried). -/
structure Holding where
  stock_name : String
  symbol : Option String
  isin : Option String
  salvage_reason : Option String
deriving DecidableEq

/-- The name-cleaning step of `extract_holding_from_row` (lines 153-158):
strip, and reject empty or placeholder names.  The result is the cleaned
name, with `""` standing for Python's falsy `None`/`""`. -/
def cleanStockName : Option String → String
  | none => ""
  | some s =>
    let t := pyStrip s
    if t = "" || pyLower t ∈ ["nan", "none", "", "null", "na"] then "" else t

/-- Salvage by symbol (lines 163-167): the running pair is
`(stock_name, salvage_reason)`, with `""` standing for a falsy name. -/
def salvage1 (sn0 : String) (symbol : Option String) : String × Option String :=
  if sn0 = "" && optTruthy symbol then (pyStrip (symbol.getD ""), some "used_symbol")
  else (sn0, none)

/-- Salvage by ISIN (lines 169-173). -/
def salvage2 (s1 : String × Option String) (isin : Option String) : String × Option String :=
  if s1.1 = "" && optTruthy isin then (pyStrip (isin.getD ""), some "used_isin")
  else s1

/-- The generated name of the numeric salvage branch (lines 191-197). -/
def numericName (symbol isin : Option String) : String :=
  if optTruthy symbol then "Unknown-" ++ symbol.getD ""
  else if optTruthy isin then "Unknown-" ++ ⟨(isin.getD "").data.take 8⟩
  else "Unknown (salvaged row)"

/-- Numeric-data salvage (lines 175-199): `meaningful` is the result of the
numeric-column scan. -/
def salvage3 (s2 : String × Option String) (symbol isin : Option String)
    (meaningful : Bool) : String × Option String :=
  if s2.1 = "" && meaningful then (numericName symbol isin, some "salvaged_numeric")
  else s2

/-- The salvage logic of `extract_holding_from_row` (lines 153-211), after
the three identifier values have been extracted from the row: clean the
name, then apply the three salvage steps in sequence, and reject the row if
the name is still falsy. -/
def extractSalvage (stock_name symbol isin : Option String) (meaningful : Bool) :
    Option Holding :=
  if (salvage3 (salvage2 (salvage1 (cleanStockName stock_name) symbol) isin)
        symbol isin meaningful).1 = "" then none
  else some ⟨(salvage3 (salvage2 (salvage1 (cleanStockName stock_name) symbol) isin)
        symbol isin meaningful).1, symbol, isin,
      (salvage3 (salvage2 (salvage1 (cleanStockName stock_name) symbol) isin)
        symbol isin meaningful).2⟩

/-- Identifier-cell view used when reading the name/symbol/ISIN columns:
`row[col] if col and pd.notna(row[col]) else None`.  A numeric cell is
stringified through its integer numerator; the exact float formatting of
`str(...)` is not modelled and no claim depends on it. -/
def cellIdStr : Cell → Option String
  | Cell.nan => none
  | Cell.str s => some s
  | Cell.num q => some (toString q.num)

/-- A pandas column is numeric when no cell in it is a string (an object
column with strings is not `is_numeric_dtype`). -/
def isNumericCol (df : DF) (c : String) : Bool :=
  df.rows.all (fun r => !(rowGet r c Cell.nan).isStr)

/-- The last-resort scan of `extract_holding_from_row` (lines 176-188):
some numeric column holds a non-NaN, nonzero value in this row. -/
def meaningfulRow (df : DF) (r : Row) : Bool :=
  df.cols.any (fun c =>
    isNumericCol df c &&
      match rowGet r c Cell.nan with
      | Cell.num v => !(v = 0)
      | _ => false)

/-- `extract_holding_from_row` (csv_utils.py lines 112-211). -/
def extract_holding_from_row (r : Row) (df : DF) (cmap : List (String × String)) :
    Option Holding :=
  let snCol := find_column_case_insensitive cmap
    ["company", "stock name", "security name", "name", "scrip", "security"]
  let syCol := find_column_case_insensitive cmap
    ["symbol", "ticker", "scrip code", "nse symbol", "bse symbol", "trading symbol"]
  let isCol := find_column_case_insensitive cmap
    ["isin", "isin code", "isin number"]
  let stock_name := snCol.bind (fun c => cellIdStr (rowGet r c Cell.nan))
  let symbol := syCol.bind (fun c => cellIdStr (rowGet r c Cell.nan))
  let isin := isCol.bind (fun c => cellIdStr (rowGet r c Cell.nan))
  extractSalvage stock_name symbol isin (meaningfulRow df r)

/-! ### stress_testing.py : ScenarioGenerator -/

structure Scenario where
  name : String
  factors : List (String × ℚ)
  description : String
  probability : ℚ
deriving DecidableEq

def market_correction_scenario : Scenario :=
  { name := "Market Correction",
    factors := [("large_cap_stocks", -12/100), ("small_cap_stocks", -18/100),
                ("tech_stocks", -15/100), ("international_stocks", -10/100),
                ("bonds", 2/100), ("reits", -8/100), ("commodities", -5/100),
                ("crypto", -25/100), ("cash", 0)],
    description := "10–15% drop in broad equities, happens every 1–2 years",
    probability := 4/10 }

def recession_scenario : Scenario :=
  { name := "Economic Recession",
    factors := [("large_cap_stocks", -22/100), ("small_cap_stocks", -28/100),
                ("tech_stocks", -25/100), ("international_stocks", -20/100),
                ("bonds", 8/100), ("reits", -15/100), ("commodities", -12/100),
                ("crypto", -40/100), ("cash", 0)],
    description := "20–30% drop in equities, occurs ~every 8–10 years",
    probability := 15/100 }

def inflation_spike_scenario : Scenario :=
  { name := "High Inflation Period",
    factors := [("large_cap_stocks", -8/100), ("small_cap_stocks", -12/100),
                ("tech_stocks", -20/100), ("international_stocks", -5/100),
                ("bonds", -15/100), ("reits", 5/100), ("commodities", 15/100),
                ("crypto", -30/100), ("cash", -6/100)],
    description := "5–10% equity losses, can persist 1–2 years",
    probability := 25/100 }

def tech_sector_crash_scenario : Scenario :=
  { name := "Tech Sector Crash",
    factors := [("large_cap_stocks", -15/100), ("small_cap_stocks", -10/100),
                ("tech_stocks", -45/100), ("international_stocks", -8/100),
                ("bonds", 5/100), ("reits", -5/100), ("commodities", 2/100),
                ("crypto", -35/100), ("cash", 0)],
    description := "15–25% tech drop, cyclic every 3–5 years",
    probability := 20/100 }

def personal_emergency_scenario : Scenario :=
  { name := "Personal Emergency",
    factors := [("large_cap_stocks", -5/100), ("small_cap_stocks", -8/100),
                ("tech_stocks", -6/100), ("international_stocks", -7/100),
                ("bonds", -2/100), ("reits", -10/100), ("commodities", -12/100),
                ("crypto", -15/100), ("cash", 0)],
    description := "Forced liquidation losses of 5–10%",
    probability := 10/100 }

/-- `ScenarioGenerator.scenarios`, in dict insertion order. -/
def SCENARIOS : List (String × Scenario) := [
  ("market_correction", market_correction_scenario),
  ("recession_scenario", recession_scenario),
  ("inflation_spike", inflation_spike_scenario),
  ("tech_sector_crash", tech_sector_crash_scenario),
  ("personal_emergency", personal_emergency_scenario)]

def list_scenarios : List String := SCENARIOS.map Prod.fst

/-- `ScenarioGenerator.get_scenario`: dict `.get` with the
`market_correction` scenario as default. -/
def get_scenario (n : String) : Scenario :=
  (assocGet n SCENARIOS).getD market_correction_scenario

/-! ### stress_testing.py : PortfolioAnalyzer -/

/-- `PortfolioAnalyzer.asset_category_mapping`, in dict insertion order. -/
def ASSET_CATEGORY_MAPPING : List (String × String) := [
  ("BANK OF MAHARASHTRA", "large_cap_stocks"),
  ("HDFC BANK", "large_cap_stocks"),
  ("ICICI BANK", "large_cap_stocks"),
  ("SBI", "large_cap_stocks"),
  ("KOTAK MAHINDRA BANK", "large_cap_stocks"),
  ("AXIS BANK", "large_cap_stocks"),
  ("GAIL (INDIA) LTD", "large_cap_stocks"),
  ("INDIAN OIL CORP LTD", "large_cap_stocks"),
  ("HINDUSTAN PETROLEUM CORP", "large_cap_stocks"),
  ("OIL AND NATURAL GAS CORP.", "large_cap_stocks"),
  ("OIL INDIA LTD", "large_cap_stocks"),
  ("COAL INDIA LTD", "large_cap_stocks"),
  ("AAPL", "tech_stocks"),
  ("Apple Inc", "tech_stocks"),
  ("Apple", "tech_stocks"),
  ("MSFT", "tech_stocks"),
  ("Microsoft Corp", "tech_stocks"),
  ("Microsoft", "tech_stocks"),
  ("GOOGL", "tech_stocks"),
  ("Alphabet Inc", "tech_stocks"),
  ("Google", "tech_stocks"),
  ("JIO FIN SERVICES LTD", "tech_stocks")]

def BANK_WORDS : List String :=
  ["bank", "financial", "insurance", "credit", "finance", "mutual fund"]

def TECH_WORDS : List String :=
  ["tech", "software", "cyber", "data", "ai", "digital", "computer", "telecom", "jio"]

def ENERGY_WORDS : List String :=
  ["oil", "gas", "energy", "petroleum", "coal", "power", "electric", "renewable"]

/-- The direct-mapping loop of `categorize_asset`: first entry whose
uppercased key contains, or is contained in, `clean_name`. -/
def directCatScan (cn : String) : List (String × String) → Option String
  | [] => none
  | (k, c) :: rest =>
    if pyIn (pyUpper k) cn || pyIn cn (pyUpper k) then some c else directCatScan cn rest

/-- `PortfolioAnalyzer.categorize_asset` (stress_testing.py lines 164-191),
on string stock names; the falsy/NaN guard for non-string cells is handled
in `cellCategory`. -/
def categorize_asset (stock_name : String) : String :=
  if stock_name = "" then "large_cap_stocks"
  else
    match directCatScan (pyUpper (pyStrip stock_name)) ASSET_CATEGORY_MAPPING with
    | some c => c
    | none =>
      let nl := pyLower stock_name
      if BANK_WORDS.any (fun w => pyIn w nl) then "large_cap_stocks"
      else if TECH_WORDS.any (fun w => pyIn w nl) then "tech_stocks"
      else if ENERGY_WORDS.any (fun w => pyIn w nl) then "large_cap_stocks"
      else "large_cap_stocks"

/-- Category of a name cell.  A NaN cell hits the `pd.isna` guard; a
numeric cell stringifies to digits, which match no mapping key and no
keyword, so it lands on the default branch: both give `large_cap_stocks`. -/
def cellCategory : Cell → String
  | Cell.str s => categorize_asset s
  | _ => "large_cap_stocks"

/-- `possible_columns` of `get_value_column`. -/
def VALUE_COLUMNS : List String := [
  "Invested Value", "Current Value",
  "Closing value", "Closing Value", "closing value", "CLOSING VALUE",
  "Market Value", "Market value", "market value", "MARKET VALUE",
  "Buy value", "Buy Value", "buy value", "BUY VALUE",
  "Value", "value", "VALUE"]

/-- `possible_columns` of `get_stock_name_column`. -/
def NAME_COLUMNS : List String := [
  "Stock Name", "stock name", "Stock name", "STOCK NAME",
  "Security Name", "security name", "Security name", "SECURITY NAME",
  "Name", "name", "NAME", "Symbol", "symbol", "SYMBOL"]

def get_value_column (df : DF) : Option String :=
  VALUE_COLUMNS.find? (fun c => df.cols.contains c)

def get_stock_name_column (df : DF) : Option String :=
  NAME_COLUMNS.find? (fun c => df.cols.contains c)

/-- Elementwise product of two cells (pandas column arithmetic; NaN
propagates, non-numeric combinations are out of the modelled scope and
yield NaN). -/
def mulCell : Cell → Cell → Cell
  | Cell.num a, Cell.num b => Cell.num (a * b)
  | _, _ => Cell.nan

/-- `df[name] = value`: overwrite the column in place, or append it. -/
def setCell (r : Row) (c : String) (v : Cell) : Row :=
  if (assocGet c r).isSome then r.map (fun p => if p.1 = c then (c, v) else p)
  else r ++ [(c, v)]

def addColumn (df : DF) (name : String) (f : Row → Cell) : DF :=
  { cols := if df.cols.contains name then df.cols else df.cols ++ [name],
    rows := df.rows.map (fun r => setCell r name (f r)) }

/-- `PortfolioAnalyzer.calculate_portfolio_values` (lines 150-162). -/
def calculate_portfolio_values (df : DF) : DF :=
  let d1 :=
    if df.cols.contains "Average buy price" && df.cols.contains "Quantity" then
      addColumn df "Invested Value"
        (fun r => mulCell (rowGet r "Average buy price" Cell.nan) (rowGet r "Quantity" Cell.nan))
    else df
  if d1.cols.contains "Closing price" && d1.cols.contains "Quantity" then
    addColumn d1 "Current Value"
      (fun r => mulCell (rowGet r "Closing price" Cell.nan) (rowGet r "Quantity" Cell.nan))
  else d1

/-- `portfolio_data[value_col].sum()`: pandas sum over the column, skipping
NaN. -/
def totalValue (vc : String) : List Row → ℚ
  | [] => 0
  | r :: rs => (rowGet r vc (Cell.num 0)).toQ + totalValue vc rs

/-- `portfolio_categories[category] += weight` with dict insertion order:
update the first matching key or append. -/
def addW : List (String × ℚ) → String → ℚ → List (String × ℚ)
  | [], c, w => [(c, w)]
  | (a, x) :: t, c, w => if a = c then (a, x + w) :: t else (a, x) :: addW t c w

/-- The categorisation loop of `analyze_portfolio` (lines 216-228): rows
with NaN or non-positive value are skipped, the rest contribute
`value / total_value` to their category.  A string value cell cannot reach
this loop (guarded before the total is computed). -/
def compLoopGo (nc vc : String) (total : ℚ) : List Row → List (String × ℚ) → List (String × ℚ)
  | [], comp => comp
  | r :: rs, comp =>
    match rowGet r vc (Cell.num 0) with
    | Cell.num v =>
      if v ≤ 0 then compLoopGo nc vc total rs comp
      else compLoopGo nc vc total rs
        (addW comp (cellCategory (rowGet r nc (Cell.str ""))) (v / total))
    | _ => compLoopGo nc vc total rs comp

/-- `sum(portfolio_categories.values())`. -/
def sumWeights : List (String × ℚ) → ℚ
  | [] => 0
  | p :: t => p.2 + sumWeights t

/-- `sum(w**2 for w in portfolio_categories.values())` (Herfindahl index). -/
def herfindahl : List (String × ℚ) → ℚ
  | [] => 0
  | p :: t => p.2 ^ 2 + herfindahl t

structure PortfolioAnalysis where
  composition : List (String × ℚ)
  total_weight : ℚ
  num_assets : ℕ
  concentration_risk : ℚ
  categories_count : ℕ
  total_portfolio_value : ℚ
  value_column_used : String
deriving DecidableEq

/-- `PortfolioAnalyzer._default_portfolio_analysis` (lines 255-271). -/
def default_portfolio_analysis : PortfolioAnalysis :=
  { composition := [("large_cap_stocks", 60/100), ("tech_stocks", 15/100),
                    ("small_cap_stocks", 15/100), ("reits", 5/100), ("bonds", 5/100)],
    total_weight := 1,
    num_assets := 20,
    concentration_risk := 25/100,
    categories_count := 5,
    total_portfolio_value := 50000,
    value_column_used := "Default" }

/-- The dictionary built on the successful path of `analyze_portfolio`
(lines 241-249), for the data frame `d` after value calculation. -/
def mainAnalysis (d : DF) (vc nc : String) : PortfolioAnalysis :=
  { composition := compLoopGo nc vc (totalValue vc d.rows) d.rows [],
    total_weight := sumWeights (compLoopGo nc vc (totalValue vc d.rows) d.rows []),
    num_assets := d.rows.length,
    concentration_risk := herfindahl (compLoopGo nc vc (totalValue vc d.rows) d.rows []),
    categories_count := (compLoopGo nc vc (totalValue vc d.rows) d.rows []).length,
    total_portfolio_value := totalValue vc d.rows,
    value_column_used := vc }

/-- `PortfolioAnalyzer.analyze_portfolio` (lines 193-253).  A string cell in
the value column makes the pandas sum or the `total_value <= 0` comparison
raise, which the `except` handler turns into the default analysis; that is
the `any isStr` guard. -/
def analyze_portfolio (df : DF) : PortfolioAnalysis :=
  if df.rows = [] then default_portfolio_analysis
  else
    match get_value_column (calculate_portfolio_values df),
          get_stock_name_column (calculate_portfolio_values df) with
    | some vc, some nc =>
      if (calculate_portfolio_values df).rows.any
          (fun r => (rowGet r vc (Cell.num 0)).isStr) then default_portfolio_analysis
      else if totalValue vc (calculate_portfolio_values df).rows ≤ 0 then
        default_portfolio_analysis
      else if compLoopGo nc vc (totalValue vc (calculate_portfolio_values df).rows)
          (calculate_portfolio_values df).rows [] = [] then default_portfolio_analysis
      else mainAnalysis (calculate_portfolio_values df) vc nc
    | _, _ => default_portfolio_analysis

/-! ### stress_testing.py : stress impact -/

/-- The risk-level banding of `calculate_stress_impact` (lines 286-291). -/
def risk_level_of (total_impact : ℚ) : String :=
  if |total_impact| > 25/100 then "Extreme"
  else if |total_impact| > 15/100 then "High"
  else if |total_impact| > 8/100 then "Medium"
  else "Low"

structure StressImpact where
  total_impact : ℚ
  impact_percentage : ℚ
  risk_level : String
  recovery_months : ℚ
  var_95 : ℚ
  factor_contributions : List (String × ℚ)
  composition_effect : Option PortfolioAnalysis
  value_calculation_method : String
deriving DecidableEq

/-- `sum(composition.get(cat, 0) * scenario_factors.get(cat, -0.05) for cat
in composition)` — iterate the composition keys, look each up again in the
composition and in the factors (factor default `-0.05`). -/
def sumImpact (comp factors : List (String × ℚ)) : ℚ :=
  comp.foldl (fun acc p =>
    acc + ((assocGet p.1 comp).getD 0) * ((assocGet p.1 factors).getD (-5/100))) 0

/-- `PortfolioAnalyzer.calculate_stress_impact` (lines 273-309).  Within
this model no step raises, so the `except` branch (which returns
`_default_stress_impact`) is unreachable. -/
def calculate_stress_impact (df : DF) (factors : List (String × ℚ)) : StressImpact :=
  let d := calculate_portfolio_values df
  let analysis := analyze_portfolio d
  let total_impact := sumImpact analysis.composition factors
  { total_impact := total_impact,
    impact_percentage := total_impact * 100,
    risk_level := risk_level_of total_impact,
    recovery_months := |total_impact| / (125/1000) * 12,
    var_95 := total_impact * (3/2),
    factor_contributions := [],
    composition_effect := some analysis,
    value_calculation_method := analysis.value_column_used }

/-- `PortfolioAnalyzer._default_stress_impact` (lines 315-326).  The draw
`u` models `np.random.uniform(-0.15, -0.08)`; the function is the
deterministic remainder of that random sample. -/
def default_stress_impact (u : ℚ) : StressImpact :=
  { total_impact := u,
    impact_percentage := u * 100,
    risk_level := "Medium",
    recovery_months := |u| * 18,
    var_95 := u * (3/2),
    factor_contributions := [("market_shock", u)],
    composition_effect := none,
    value_calculation_method := "Default" }

/-- The interval from which `_default_stress_impact` draws its impact. -/
def defaultImpactRange (u : ℚ) : Prop := -15/100 ≤ u ∧ u ≤ -8/100

/-! ### stress_testing.py : StressTestingEngine -/

structure StressAnalysis where
  scenario : Scenario
  stress_impact : StressImpact
  portfolio_analysis : PortfolioAnalysis
deriving DecidableEq

/-- `StressTestingEngine.explain_stress_impact` (lines 355-406), for the
default engine (`model_interface=None`, so the model branch is skipped).
`get_scenario` never returns `None` and the analyzer calls never raise in
this model, so the `except` fallback (lines 382-406) is unreachable. -/
def explain_stress_impact (df : DF) (scenario_name : String) : StressAnalysis :=
  let scenario := get_scenario scenario_name
  { scenario := scenario,
    stress_impact := calculate_stress_impact df scenario.factors,
    portfolio_analysis := analyze_portfolio df }

/-- Python `str.title()`: a letter following a non-letter is uppercased,
a letter following a letter is lowercased. -/
def titleLoop : List Char → Bool → List Char
  | [], _ => []
  | c :: t, prevAlpha =>
    (if c.isAlpha then (if prevAlpha then c.toLower else c.toUpper) else c)
      :: titleLoop t c.isAlpha

def pyTitle (s : String) : String := ⟨titleLoop s.data false⟩

/-- `scenario_name.replace('_', ' ')`. -/
def pyReplaceUnderscore (s : String) : String :=
  ⟨s.data.map (fun c => if c = '_' then ' ' else c)⟩

structure CompRow where
  scenario : String
  impact_percentage : ℚ
  risk_level : String
  recovery_months : ℚ
deriving DecidableEq

/-- One iteration of the `compare_scenarios` loop body (lines 528-537). -/
def mkCompRow (df : DF) (n : String) : CompRow :=
  let a := explain_stress_impact df n
  { scenario := pyTitle (pyReplaceUnderscore n),
    impact_percentage := a.stress_impact.impact_percentage,
    risk_level := a.stress_impact.risk_level,
    recovery_months := a.stress_impact.recovery_months }

/-- The `for scenario_name in scenario_names` loop of `compare_scenarios`.
`explain_stress_impact` never raises in this model, so the `except
... continue` arm is never taken and every name yields a row. -/
def compareLoop (df : DF) : List String → List CompRow
  | [] => []
  | n :: ns => mkCompRow df n :: compareLoop df ns

/-- The hardcoded fallback rows of `compare_scenarios` (lines 543-548). -/
def FALLBACK_ROWS : List CompRow :=
  [⟨"Market Correction", -125/10, "Medium", 8⟩,
   ⟨"Tech Crash", -182/10, "High", 15⟩,
   ⟨"Recession", -237/10, "High", 22⟩]

/-- `StressTestingEngine.compare_scenarios` (lines 524-550). -/
def compare_scenarios (df : DF) (names : List String) : List CompRow :=
  if compareLoop df names = [] then FALLBACK_ROWS else compareLoop df names

/-! ### Concrete inputs used by the claims -/

def rowC1a : Row := [("name", Cell.str "HDFC BANK"), ("symbol", Cell.nan), ("value", Cell.num 50000)]

def rowC1b : Row := [("name", Cell.str "TCS"), ("symbol", Cell.nan), ("value", Cell.num 30000)]

def rowC1c : Row := [("name", Cell.str ""), ("symbol", Cell.str "RELIANCE"), ("value", Cell.num 20000)]

/-- The three-row portfolio of the end-to-end scenario. -/
def dfC1 : DF := ⟨["name", "symbol", "value"], [rowC1a, rowC1b, rowC1c]⟩

/-- Lowercase column map for `dfC1` (the columns are already lowercase). -/
def cmapC1 : List (String × String) := [("name", "name"), ("symbol", "symbol"), ("value", "value")]

/-! ### Claim theorems -/

/-- C1: end-to-end pipeline on the three-row input: row extraction yields
the three holdings (the third salvaged via symbol with reason
`used_symbol`), all three names classify as `large_cap_stocks`, the
composition is `{large_cap_stocks: 1.0}`, and the `market_correction`
scenario yields `total_impact = -0.12`, `risk_level = "Medium"`,
`recovery_months = 11.52` and `var_95 = -0.18`. -/
theorem c1_end_to_end_pipeline :
    extract_holding_from_row rowC1a dfC1 cmapC1 = some ⟨"HDFC BANK", none, none, none⟩
    ∧ extract_holding_from_row rowC1b dfC1 cmapC1 = some ⟨"TCS", none, none, none⟩
    ∧ extract_holding_from_row rowC1c dfC1 cmapC1 =
        some ⟨"RELIANCE", some "RELIANCE", none, some "used_symbol"⟩
    ∧ categorize_asset "HDFC BANK" = "large_cap_stocks"
    ∧ categorize_asset "TCS" = "large_cap_stocks"
    ∧ categorize_asset "RELIANCE" = "large_cap_stocks"
    ∧ (analyze_portfolio dfC1).composition = [("large_cap_stocks", 1)]
    ∧ (calculate_stress_impact dfC1 market_correction_scenario.factors).total_impact = -12/100
    ∧ (calculate_stress_impact dfC1 market_correction_scenario.factors).risk_level = "Medium"
    ∧ (calculate_stress_impact dfC1 market_correction_scenario.factors).recovery_months = 1152/100
    ∧ (calculate_stress_impact dfC1 market_correction_scenario.factors).var_95 = -18/100 := by
  refine ⟨?_, ?_, ?_, by decide, by decide, by decide, ?_, ?_, ?_, ?_, ?_⟩ <;>
    norm_num +decide [extract_holding_from_row, find_column_case_insensitive, exactColMatch,
      looseColMatch, looseColScan, assocGet, cellIdStr, rowGet, meaningfulRow, isNumericCol,
      extractSalvage, salvage1, salvage2, salvage3, numericName, cleanStockName, optTruthy,
      rowC1a, rowC1b, rowC1c, dfC1, cmapC1,
      analyze_portfolio, mainAnalysis, calculate_portfolio_values, addColumn, setCell, mulCell,
      get_value_column, get_stock_name_column, VALUE_COLUMNS, NAME_COLUMNS, totalValue,
      compLoopGo, addW, cellCategory, categorize_asset, directCatScan, ASSET_CATEGORY_MAPPING,
      calculate_stress_impact, sumImpact, risk_level_of, market_correction_scenario,
      Cell.toQ, Cell.isStr, List.find?, List.foldl, abs_of_nonneg, abs_of_nonpos]

/-- C3: risk-level banding is a strict greater-than chain on `|total_impact|`:
`>0.25 → Extreme`, `>0.15 → High`, `>0.08 → Medium`, else `Low`; in
particular an impact of exactly `-0.08` classifies as `Low`. -/
theorem c3_risk_level_strict_banding :
    (∀ t : ℚ,
      (risk_level_of t = "Extreme" ↔ 25/100 < |t|)
      ∧ (risk_level_of t = "High" ↔ 15/100 < |t| ∧ |t| ≤ 25/100)
      ∧ (risk_level_of t = "Medium" ↔ 8/100 < |t| ∧ |t| ≤ 15/100)
      ∧ (risk_level_of t = "Low" ↔ |t| ≤ 8/100))
    ∧ risk_level_of (-8/100) = "Low" := by
  constructor
  · intro t
    unfold risk_level_of
    split_ifs with h1 h2 h3 <;>
      refine ⟨?_, ?_, ?_, ?_⟩ <;> simp +decide <;> push_neg at * <;>
        first
          | linarith
          | (intro h; linarith)
          | (constructor <;> linarith)
  · norm_num [risk_level_of, abs_of_nonpos]

/-- C8: on an empty holdings table, unresolvable name/value columns, or a
non-positive total value, `analyze_portfolio` returns the fixed default
composition 60/15/15/5/5. -/
theorem c8_default_composition_on_degenerate (df : DF)
    (h : df.rows = []
      ∨ get_value_column (calculate_portfolio_values df) = none
      ∨ get_stock_name_column (calculate_portfolio_values df) = none
      ∨ ∃ vc, get_value_column (calculate_portfolio_values df) = some vc
          ∧ totalValue vc (calculate_portfolio_values df).rows ≤ 0) :
    analyze_portfolio df = default_portfolio_analysis
    ∧ default_portfolio_analysis.composition =
        [("large_cap_stocks", 60/100), ("tech_stocks", 15/100),
         ("small_cap_stocks", 15/100), ("reits", 5/100), ("bonds", 5/100)] := by
  refine ⟨?_, rfl⟩
  unfold analyze_portfolio
  split
  · rfl
  · rename_i hrows
    split
    · rename_i vc nc hvc hnc
      rcases h with h | h | h | ⟨vc2, hvc2, hle⟩
      · exact absurd h hrows
      · rw [h] at hvc; exact Option.noConfusion hvc
      · rw [h] at hnc; exact Option.noConfusion hnc
      · rw [hvc] at hvc2
        have hv : vc = vc2 := Option.some.inj hvc2
        subst hv
        split <;> rfl
    · rfl

/-- A closed witness for C8: the empty table hits the default path. -/
theorem c8_default_composition_witness :
    (⟨[], []⟩ : DF).rows = []
    ∧ analyze_portfolio ⟨[], []⟩ = default_portfolio_analysis :=
  ⟨rfl, (c8_default_composition_on_degenerate ⟨[], []⟩ (Or.inl rfl)).1⟩

/-- C10: the default analysis hardcodes `concentration_risk = 0.25`, which
differs from the Herfindahl index of its own composition (0.41); on every
non-default path the returned `concentration_risk` is exactly the
Herfindahl index of the returned composition. -/
theorem c10_concentration_risk_default_mismatch :
    default_portfolio_analysis.concentration_risk = 25/100
    ∧ herfindahl default_portfolio_analysis.composition = 41/100
    ∧ default_portfolio_analysis.concentration_risk ≠
        herfindahl default_portfolio_analysis.composition
    ∧ ∀ df : DF, analyze_portfolio df = default_portfolio_analysis
        ∨ (analyze_portfolio df).concentration_risk =
            herfindahl (analyze_portfolio df).composition := by
  refine ⟨by norm_num [default_portfolio_analysis],
          by norm_num [herfindahl, default_portfolio_analysis],
          by norm_num [herfindahl, default_portfolio_analysis], ?_⟩
  intro df
  unfold analyze_portfolio
  split
  · exact Or.inl rfl
  · split
    · split
      · exact Or.inl rfl
      · split
        · exact Or.inl rfl
        · split
          · exact Or.inl rfl
          · exact Or.inr rfl
    · exact Or.inl rfl

/-! The split cases above follow the source branch order: empty table,
column resolution, string guard, non-positive total, empty composition,
and finally the successful path. -/

/-! ### Weight-sum lemmas for the categorisation loop (claim C2) -/

/-- The contribution of one row to the categorisation loop: its value when
positive and numeric, else 0. -/
def posVal (vc : String) (r : Row) : ℚ :=
  match rowGet r vc (Cell.num 0) with
  | Cell.num v => if v ≤ 0 then 0 else v
  | _ => 0

/-- Sum of the positive numeric values of a column. -/
def posSum (vc : String) : List Row → ℚ
  | [] => 0
  | r :: rs => posVal vc r + posSum vc rs

theorem sumWeights_addW (comp : List (String × ℚ)) (c : String) (w : ℚ) :
    sumWeights (addW comp c w) = sumWeights comp + w := by
  induction comp with
  | nil => simp [addW, sumWeights]
  | cons p t ih =>
    obtain ⟨a, x⟩ := p
    by_cases h : a = c <;> simp [addW, h, sumWeights, ih] <;> ring

theorem mem_addW_nonneg (comp : List (String × ℚ)) (c : String) (w : ℚ)
    (hc : ∀ p ∈ comp, 0 ≤ p.2) (hw : 0 ≤ w) :
    ∀ p ∈ addW comp c w, 0 ≤ p.2 := by
  induction comp with
  | nil => simpa [addW] using hw
  | cons q t ih =>
    obtain ⟨a, x⟩ := q
    intro p hp
    by_cases h : a = c
    · simp only [addW, if_pos h] at hp
      rcases List.mem_cons.mp hp with h2 | h2
      · subst h2
        have := hc (a, x) (List.mem_cons_self _ _)
        simpa using add_nonneg this hw
      · exact hc p (List.mem_cons_of_mem _ h2)
    · simp only [addW, if_neg h] at hp
      rcases List.mem_cons.mp hp with h2 | h2
      · subst h2; exact hc (a, x) (List.mem_cons_self _ _)
      · exact ih (fun q hq => hc q (List.mem_cons_of_mem _ hq)) p h2

theorem compLoopGo_sum (nc vc : String) (total : ℚ) (rows : List Row) :
    ∀ comp, sumWeights (compLoopGo nc vc total rows comp)
      = sumWeights comp + posSum vc rows / total := by
  induction rows with
  | nil => intro comp; simp [compLoopGo, posSum]
  | cons r rs ih =>
    intro comp
    cases hcell : rowGet r vc (Cell.num 0) with
    | num v =>
      by_cases h : v ≤ 0
      · simp [compLoopGo, hcell, h, ih, posSum, posVal]
      · simp only [compLoopGo, hcell, if_neg h, ih, sumWeights_addW, posSum, posVal]
        rw [add_div]
        ring
    | str s => simp [compLoopGo, hcell, ih, posSum, posVal]
    | nan => simp [compLoopGo, hcell, ih, posSum, posVal]

theorem compLoopGo_nonneg (nc vc : String) (total : ℚ) (htot : 0 < total)
    (rows : List Row) :
    ∀ comp, (∀ p ∈ comp, 0 ≤ p.2) →
      ∀ p ∈ compLoopGo nc vc total rows comp, 0 ≤ p.2 := by
  induction rows with
  | nil => intro comp hc; simpa [compLoopGo] using hc
  | cons r rs ih =>
    intro comp hc
    cases hcell : rowGet r vc (Cell.num 0) with
    | num v =>
      by_cases h : v ≤ 0
      · simpa [compLoopGo, hcell, h] using ih comp hc
      · intro p hp
        have hw : (0 : ℚ) ≤ v / total :=
          div_nonneg (le_of_lt (lt_of_not_le h)) (le_of_lt htot)
        simp only [compLoopGo, hcell, if_neg h] at hp
        exact ih _ (mem_addW_nonneg comp (cellCategory (rowGet r nc (Cell.str "")))
          (v / total) hc hw) p hp
    | str s => simpa [compLoopGo, hcell] using ih comp hc
    | nan => simpa [compLoopGo, hcell] using ih comp hc

theorem totalValue_le_posSum (vc : String) (rows : List Row) :
    totalValue vc rows ≤ posSum vc rows := by
  induction rows with
  | nil => simp [totalValue, posSum]
  | cons r rs ih =>
    have hcell : (rowGet r vc (Cell.num 0)).toQ ≤ posVal vc r := by
      cases hc : rowGet r vc (Cell.num 0) with
      | num v =>
        by_cases h : v ≤ 0 <;> simp [Cell.toQ, posVal, hc, h]
      | str s => simp [Cell.toQ, posVal, hc]
      | nan => simp [Cell.toQ, posVal, hc]
    simpa [totalValue, posSum] using add_le_add hcell ih

theorem totalValue_eq_posSum_of_nonneg (vc : String) (rows : List Row)
    (h : ∀ r ∈ rows, 0 ≤ (rowGet r vc (Cell.num 0)).toQ) :
    totalValue vc rows = posSum vc rows := by
  induction rows with
  | nil => simp [totalValue, posSum]
  | cons r rs ih =>
    have hr := h r (List.mem_cons_self _ _)
    have hcell : (rowGet r vc (Cell.num 0)).toQ = posVal vc r := by
      cases hc : rowGet r vc (Cell.num 0) with
      | num v =>
        rw [hc] at hr
        simp only [Cell.toQ] at hr ⊢
        simp only [posVal, hc]
        by_cases hv : v ≤ 0
        · have : v = 0 := le_antisymm hv hr
          simp [this]
        · simp [hv]
      | str s => simp [Cell.toQ, posVal, hc]
      | nan => simp [Cell.toQ, posVal, hc]
    simp [totalValue, posSum, hcell, ih (fun q hq => h q (List.mem_cons_of_mem _ hq))]

theorem default_composition_nonneg :
    ∀ p ∈ default_portfolio_analysis.composition, 0 ≤ p.2 := by
  intro p hp
  simp only [default_portfolio_analysis, List.mem_cons, List.not_mem_nil, or_false] at hp
  rcases hp with h | h | h | h | h <;> subst h <;> norm_num

theorem default_composition_sum_one :
    sumWeights default_portfolio_analysis.composition = 1 := by
  norm_num [default_portfolio_analysis, sumWeights]

/-- Portfolio with one positive and one negative holding: the negative
value is excluded from the composition but still lowers the total. -/
def dfC2 : DF :=
  ⟨["name", "value"],
   [[("name", Cell.str "A"), ("value", Cell.num 100)],
    [("name", Cell.str "B"), ("value", Cell.num (-50))]]⟩

/-- C2 counterexample: on `dfC2` the name and value columns resolve and the
total value is 50 > 0, yet the single weight is 100/50 = 2, so the weights
sum to 2 > 1 — refuting the claimed invariant `Σ weights ≤ 1`. -/
theorem c2_counterexample_weights_above_one :
    get_value_column (calculate_portfolio_values dfC2) = some "value"
    ∧ get_stock_name_column (calculate_portfolio_values dfC2) = some "name"
    ∧ totalValue "value" (calculate_portfolio_values dfC2).rows = 50
    ∧ (analyze_portfolio dfC2).composition = [("large_cap_stocks", 2)]
    ∧ ¬ sumWeights (analyze_portfolio dfC2).composition ≤ 1 := by
  refine ⟨by decide, by decide, by norm_num +decide [dfC2, calculate_portfolio_values,
    totalValue, rowGet, assocGet, Cell.toQ], ?_, ?_⟩ <;>
    norm_num +decide [dfC2, analyze_portfolio, mainAnalysis, calculate_portfolio_values,
      get_value_column, get_stock_name_column, VALUE_COLUMNS, NAME_COLUMNS, totalValue,
      rowGet, assocGet, Cell.toQ, Cell.isStr, compLoopGo, addW, cellCategory,
      categorize_asset, directCatScan, ASSET_CATEGORY_MAPPING, sumWeights, List.find?]

/-- C2 amended: every weight is ≥ 0, but the weights sum to at least 1
(not at most 1): holdings excluded for negative value lower the total
without lowering the included values, pushing the sum above 1.  When every
value in the resolved value column is non-negative — in particular when all
are positive — the weights sum to exactly 1. -/
theorem c2_amended_weight_invariants (df : DF) :
    (∀ p ∈ (analyze_portfolio df).composition, 0 ≤ p.2)
    ∧ 1 ≤ sumWeights (analyze_portfolio df).composition
    ∧ (∀ vc, get_value_column (calculate_portfolio_values df) = some vc →
        (∀ r ∈ (calculate_portfolio_values df).rows, 0 ≤ (rowGet r vc (Cell.num 0)).toQ) →
        sumWeights (analyze_portfolio df).composition = 1) := by
  unfold analyze_portfolio
  split
  · exact ⟨default_composition_nonneg, le_of_eq default_composition_sum_one.symm,
      fun _ _ _ => default_composition_sum_one⟩
  · split
    · rename_i vc nc hvc hnc
      split
      · exact ⟨default_composition_nonneg, le_of_eq default_composition_sum_one.symm,
          fun _ _ _ => default_composition_sum_one⟩
      · split
        · exact ⟨default_composition_nonneg, le_of_eq default_composition_sum_one.symm,
            fun _ _ _ => default_composition_sum_one⟩
        · split
          · exact ⟨default_composition_nonneg, le_of_eq default_composition_sum_one.symm,
              fun _ _ _ => default_composition_sum_one⟩
          · rename_i hpos hne
            have htot : 0 < totalValue vc (calculate_portfolio_values df).rows :=
              lt_of_not_le hpos
            refine ⟨?_, ?_, ?_⟩
            · exact compLoopGo_nonneg nc vc _ htot _ [] (by simp)
            · show 1 ≤ sumWeights (compLoopGo nc vc _ _ [])
              rw [compLoopGo_sum]
              simpa [sumWeights] using (one_le_div htot).mpr (totalValue_le_posSum vc _)
            · intro vc2 hvc2 hnn
              rw [hvc] at hvc2
              have hv : vc = vc2 := Option.some.inj hvc2
              subst hv
              show sumWeights (compLoopGo nc vc _ _ []) = 1
              rw [compLoopGo_sum]
              rw [← totalValue_eq_posSum_of_nonneg vc _ hnn]
              simp [sumWeights, div_self (ne_of_gt htot)]
    · exact ⟨default_composition_nonneg, le_of_eq default_composition_sum_one.symm,
        fun _ _ _ => default_composition_sum_one⟩

/-- A closed witness for C2 (amended): on the all-positive portfolio
`dfC1` the weights are non-negative and sum to exactly 1. -/
theorem c2_amended_weight_invariants_witness :
    (∀ p ∈ (analyze_portfolio dfC1).composition, 0 ≤ p.2)
    ∧ 1 ≤ sumWeights (analyze_portfolio dfC1).composition
    ∧ sumWeights (analyze_portfolio dfC1).composition = 1 := by
  obtain ⟨h1, h2, h3⟩ := c2_amended_weight_invariants dfC1
  refine ⟨h1, h2, h3 "value" (by decide) ?_⟩
  intro r hr
  fin_cases hr <;> norm_num +decide [rowGet, assocGet, Cell.toQ]

/-- C4 counterexample: the degenerate-path fallback `_default_stress_impact`
draws its impact from `np.random.uniform(-0.15, -0.08)`; two legitimate
draws from that interval give different `total_impact`, so the fallback is
not a fixed, run-independent value. -/
theorem c4_counterexample_fallback_is_random :
    defaultImpactRange (-15/100) ∧ defaultImpactRange (-1/10)
    ∧ (default_stress_impact (-15/100)).total_impact ≠
        (default_stress_impact (-1/10)).total_impact := by
  refine ⟨⟨by norm_num, by norm_num⟩, ⟨by norm_num, by norm_num⟩, ?_⟩
  norm_num [default_stress_impact]

/-- C4 amended: the fallback impact is a uniform random draw from
[-0.15, -0.08] rather than a fixed value; for every draw in that range the
returned record is structurally valid and fully determined by the draw:
`total_impact = u`, `impact_percentage = 100u`, `var_95 = 1.5u`,
`recovery_months = 18|u|`, `risk_level = "Medium"`, and the impact stays in
the sampled interval. -/
theorem c4_amended_fallback_determined_by_draw (u : ℚ) (h : defaultImpactRange u) :
    (default_stress_impact u).total_impact = u
    ∧ (default_stress_impact u).impact_percentage = u * 100
    ∧ (default_stress_impact u).risk_level = "Medium"
    ∧ (default_stress_impact u).var_95 = u * (3/2)
    ∧ (default_stress_impact u).recovery_months = |u| * 18
    ∧ -15/100 ≤ (default_stress_impact u).total_impact
    ∧ (default_stress_impact u).total_impact ≤ -8/100 :=
  ⟨rfl, rfl, rfl, rfl, rfl, h.1, h.2⟩

/-- A closed witness for C4 (amended) at the draw `u = -1/10`. -/
theorem c4_amended_fallback_witness :
    defaultImpactRange (-1/10)
    ∧ (default_stress_impact (-1/10)).total_impact = -1/10
    ∧ (default_stress_impact (-1/10)).risk_level = "Medium" := by
  have h : defaultImpactRange (-1/10) := by constructor <;> norm_num
  exact ⟨h, (c4_amended_fallback_determined_by_draw (-1/10) h).1,
    (c4_amended_fallback_determined_by_draw (-1/10) h).2.2.1⟩

/-- C5 counterexample: `"totally_bogus"` is not in the scenario catalog,
yet `compare_scenarios` does not skip it: `get_scenario` silently falls
back to the `market_correction` scenario and a result row titled
`"Totally Bogus"` is produced. -/
theorem c5_counterexample_unknown_scenario_not_skipped :
    "totally_bogus" ∉ list_scenarios
    ∧ get_scenario "totally_bogus" = market_correction_scenario
    ∧ (compare_scenarios ⟨[], []⟩ ["totally_bogus"]).length = 1
    ∧ (compare_scenarios ⟨[], []⟩ ["totally_bogus"]).map CompRow.scenario
        = ["Totally Bogus"] := by
  have hnone : assocGet "totally_bogus" SCENARIOS = none := by decide
  refine ⟨by decide, by simp [get_scenario, hnone], ?_, ?_⟩ <;>
    simp only [compare_scenarios, compareLoop, if_neg (List.cons_ne_nil _ _),
      List.length_cons, List.length_nil, List.map_cons, List.map_nil, mkCompRow] <;>
    decide

/-- `compareLoop` is a per-name map. -/
theorem compareLoop_eq_map (df : DF) (names : List String) :
    compareLoop df names = names.map (mkCompRow df) := by
  induction names with
  | nil => rfl
  | cons n ns ih => simp [compareLoop, ih]

/-- C5 amended: `compare_scenarios` applies the impact computation once per
requested name, in input order, producing exactly one row per name — but
names absent from the catalog are not skipped (they are computed under
`get_scenario`'s `market_correction` default), and only an empty request
list triggers the hardcoded three-row fallback. -/
theorem c5_amended_one_row_per_name (df : DF) (names : List String) (h : names ≠ []) :
    compare_scenarios df names = names.map (mkCompRow df)
    ∧ (compare_scenarios df names).length = names.length := by
  have hmap : compareLoop df names = names.map (mkCompRow df) := compareLoop_eq_map df names
  have hne : compareLoop df names ≠ [] := by
    rw [hmap]
    simpa using h
  constructor
  · rw [compare_scenarios, if_neg hne, hmap]
  · rw [compare_scenarios, if_neg hne, hmap, List.length_map]

/-- A closed witness for C5 (amended) on a one-element request list. -/
theorem c5_amended_one_row_witness :
    (["market_correction"] : List String) ≠ []
    ∧ compare_scenarios ⟨[], []⟩ ["market_correction"]
        = ["market_correction"].map (mkCompRow ⟨[], []⟩) :=
  ⟨by decide, (c5_amended_one_row_per_name ⟨[], []⟩ ["market_correction"] (by decide)).1⟩

/-- The column map of the C7 counterexample: an uploaded table with columns
`Company Name` and `Name`. -/
def cmapC7 : List (String × String) := [("company name", "Company Name"), ("name", "Name")]

/-- C7 counterexample: with patterns `["company", "name"]`, the
lower-priority pattern `"name"` has an exact case-insensitive match
(`Name`), but the higher-priority pattern `"company"`'s substring fallback
fires first and returns `Company Name` — refuting the claim that all exact
matches are attempted before any substring match. -/
theorem c7_counterexample_substring_beats_exact :
    exactColMatch cmapC7 "name" = some "Name"
    ∧ find_column_case_insensitive cmapC7 ["company", "name"] = some "Company Name"
    ∧ find_column_case_insensitive cmapC7 ["company", "name"] ≠ some "Name" := by
  decide

/-- C7 amended: matching is per pattern in priority order, each pattern
trying the exact match and then its own substring fallback before the next
pattern is considered; hence a lower-priority exact match wins only when
every higher-priority pattern has neither an exact nor a substring match. -/
theorem c7_amended_exact_wins_if_earlier_patterns_blank
    (cmap : List (String × String)) (pats : List String) (i : ℕ) (hi : i < pats.length)
    (c : String)
    (hprev : ∀ j (hj : j < i),
      exactColMatch cmap (pats.get ⟨j, lt_trans hj hi⟩) = none
      ∧ looseColMatch cmap (pats.get ⟨j, lt_trans hj hi⟩) = none)
    (hex : exactColMatch cmap (pats.get ⟨i, hi⟩) = some c) :
    find_column_case_insensitive cmap pats = some c := by
  induction pats generalizing i with
  | nil => exact absurd hi (by simp)
  | cons p ps ih =>
    cases i with
    | zero =>
      simp only [List.get] at hex
      unfold find_column_case_insensitive
      rw [hex]
    | succ j =>
      have h0 := hprev 0 (Nat.succ_pos j)
      simp only [List.get] at h0
      unfold find_column_case_insensitive
      rw [h0.1, h0.2]
      exact ih j (Nat.lt_of_succ_lt_succ hi)
        (fun k hk => hprev (k + 1) (Nat.succ_lt_succ hk))
        hex

/-- A closed witness for C7 (amended): the blank higher-priority pattern
`"zzz"` matches nothing, so the exact match of `"name"` is returned. -/
theorem c7_amended_exact_wins_witness :
    exactColMatch [("name", "Name")] "name" = some "Name"
    ∧ find_column_case_insensitive [("name", "Name")] ["zzz", "name"] = some "Name" := by
  constructor
  · decide
  · exact c7_amended_exact_wins_if_earlier_patterns_blank [("name", "Name")] ["zzz", "name"]
      1 (by decide) "Name"
      (by
        intro j hj
        have hj0 : j = 0 := by omega
        subst hj0
        exact ⟨show exactColMatch [("name", "Name")] "zzz" = none by decide,
               show looseColMatch [("name", "Name")] "zzz" = none by decide⟩)
      (show exactColMatch [("name", "Name")] "name" = some "Name" by decide)

/-! ### String-append helper lemmas -/

theorem string_data_append (x y : String) : (x ++ y).data = x.data ++ y.data := by
  cases x; cases y; rfl

theorem append_ne_empty_left (x y : String) (hx : x.data ≠ []) : x ++ y ≠ "" := by
  intro h
  have hd : (x ++ y).data = ([] : List Char) := by rw [h]
  rw [string_data_append] at hd
  exact hx (List.append_eq_nil.mp hd).1

theorem append_ne_empty_right (x y : String) (hy : y.data ≠ []) : x ++ y ≠ "" := by
  intro h
  have hd : (x ++ y).data = ([] : List Char) := by rw [h]
  rw [string_data_append] at hd
  exact hy (List.append_eq_nil.mp hd).2

/-! ### Claim C9: the salvaged-numeric path -/

theorem salvage1_falsy (sn0 : String) (sy : Option String) :
    (salvage1 sn0 sy).1 = "" →
    sn0 = "" ∧ (optTruthy sy = true → pyStrip (sy.getD "") = "") := by
  unfold salvage1
  split_ifs with h
  · intro h1
    have hc := (Bool.and_eq_true _ _).mp h
    exact ⟨of_decide_eq_true hc.1, fun _ => h1⟩
  · intro h1
    refine ⟨h1, fun ht => ?_⟩
    exact absurd ((Bool.and_eq_true _ _).mpr ⟨decide_eq_true h1, ht⟩) h

theorem salvage2_falsy (s1 : String × Option String) (i : Option String) :
    (salvage2 s1 i).1 = "" →
    s1.1 = "" ∧ (optTruthy i = true → pyStrip (i.getD "") = "") := by
  unfold salvage2
  split_ifs with h
  · intro h1
    have hc := (Bool.and_eq_true _ _).mp h
    exact ⟨of_decide_eq_true hc.1, fun _ => h1⟩
  · intro h1
    refine ⟨h1, fun ht => ?_⟩
    exact absurd ((Bool.and_eq_true _ _).mpr ⟨decide_eq_true h1, ht⟩) h

theorem salvage12_reason_ne (sn0 : String) (sy i : Option String) :
    (salvage2 (salvage1 sn0 sy) i).2 ≠ some "salvaged_numeric" := by
  unfold salvage2 salvage1
  split_ifs <;> intro hcon <;> simp at hcon

theorem salvage3_numeric (s2 : String × Option String) (sy i : Option String) (mf : Bool)
    (hr : s2.2 ≠ some "salvaged_numeric") :
    (salvage3 s2 sy i mf).2 = some "salvaged_numeric" →
    s2.1 = "" ∧ mf = true ∧ (salvage3 s2 sy i mf).1 = numericName sy i := by
  unfold salvage3
  split_ifs with h
  · intro _
    have hc := (Bool.and_eq_true _ _).mp h
    exact ⟨of_decide_eq_true hc.1, hc.2, rfl⟩
  · intro hcon
    exact absurd hcon hr

def rowC9 : Row := [("symbol", Cell.str " "), ("qty", Cell.num 5)]

/-- Table with a whitespace-only symbol and a nonzero numeric column. -/
def dfC9 : DF := ⟨["symbol", "qty"], [rowC9]⟩

def cmapC9 : List (String × String) := [("symbol", "symbol"), ("qty", "qty")]

/-- C9 counterexample: a whitespace-only symbol is truthy but strips to the
empty string, so the symbol salvage fails and the row falls through to the
numeric salvage — which then produces `Unknown- ` via the
`Unknown-{symbol}` branch under `salvage_reason = 'salvaged_numeric'`,
refuting the claimed unreachability of that branch. -/
theorem c9_counterexample_unknown_symbol_branch_reached :
    extract_holding_from_row rowC9 dfC9 cmapC9
      = some ⟨"Unknown- ", some " ", none, some "salvaged_numeric"⟩
    ∧ ("Unknown- " : String) ≠ "Unknown (salvaged row)" := by
  constructor
  · norm_num +decide [extract_holding_from_row, find_column_case_insensitive, exactColMatch,
      looseColMatch, looseColScan, assocGet, cellIdStr, rowGet, meaningfulRow, isNumericCol,
      extractSalvage, salvage1, salvage2, salvage3, numericName, cleanStockName, optTruthy,
      rowC9, dfC9, cmapC9, Cell.isStr]
  · decide

/-- C9 amended: on the `salvaged_numeric` path every present identifier is
whitespace-only (truthy but stripping to the empty string) — otherwise an
earlier salvage step would have kept its stripped value; the name is
`"Unknown (salvaged row)"` exactly when neither symbol nor ISIN is truthy,
while a truthy whitespace-only symbol yields `"Unknown-" ++ symbol` and a
truthy whitespace-only ISIN (with no truthy symbol) yields
`"Unknown-" ++ isin[:8]`. -/
theorem c9_amended_salvaged_numeric_identifiers (sn sy isin : Option String)
    (mf : Bool) (h : Holding)
    (hex : extractSalvage sn sy isin mf = some h)
    (hreason : h.salvage_reason = some "salvaged_numeric") :
    (∀ s, sy = some s → s ≠ "" → pyStrip s = "")
    ∧ (∀ s, isin = some s → s ≠ "" → pyStrip s = "")
    ∧ (optTruthy sy = false → optTruthy isin = false →
        h.stock_name = "Unknown (salvaged row)")
    ∧ (∀ s, sy = some s → s ≠ "" → h.stock_name = "Unknown-" ++ s)
    ∧ (∀ s, isin = some s → s ≠ "" → optTruthy sy = false →
        h.stock_name = "Unknown-" ++ (⟨s.data.take 8⟩ : String)) := by
  have hL1 := salvage1_falsy (cleanStockName sn) sy
  have hL2 := salvage2_falsy (salvage1 (cleanStockName sn) sy) isin
  have hL3 := salvage3_numeric (salvage2 (salvage1 (cleanStockName sn) sy) isin) sy isin mf
    (salvage12_reason_ne (cleanStockName sn) sy isin)
  unfold extractSalvage at hex
  split at hex
  · exact Option.noConfusion hex
  · rename_i hne
    have hh := (Option.some.inj hex).symm
    have hr2 : (salvage3 (salvage2 (salvage1 (cleanStockName sn) sy) isin)
        sy isin mf).2 = some "salvaged_numeric" := by
      rw [hh] at hreason
      exact hreason
    obtain ⟨hs2, hmf, hname⟩ := hL3 hr2
    obtain ⟨hs1, hifact⟩ := hL2 hs2
    obtain ⟨hsn0, hsfact⟩ := hL1 hs1
    have hnamev : h.stock_name = numericName sy isin := by rw [hh, hname]
    refine ⟨?_, ?_, ?_, ?_, ?_⟩
    · intro s hs hne2
      have ht : optTruthy sy = true := by simp [optTruthy, hs, hne2]
      have := hsfact ht
      rwa [hs] at this
    · intro s hs hne2
      have ht : optTruthy isin = true := by simp [optTruthy, hs, hne2]
      have := hifact ht
      rwa [hs] at this
    · intro hf1 hf2
      rw [hnamev]
      simp [numericName, hf1, hf2]
    · intro s hs hne2
      have ht : optTruthy (some s) = true := by simp [optTruthy, hne2]
      rw [hnamev, hs]
      simp [numericName, ht]
    · intro s hs hne2 hf
      have ht : optTruthy (some s) = true := by simp [optTruthy, hne2]
      rw [hnamev, hs]
      simp [numericName, hf, ht]

/-- A closed witness for C9 (amended) at the counterexample input. -/
theorem c9_amended_salvaged_numeric_witness :
    extractSalvage none (some " ") none true
      = some ⟨"Unknown- ", some " ", none, some "salvaged_numeric"⟩
    ∧ pyStrip " " = "" := by
  have hex : extractSalvage none (some " ") none true
      = some ⟨"Unknown- ", some " ", none, some "salvaged_numeric"⟩ := by decide
  refine ⟨hex, ?_⟩
  exact (c9_amended_salvaged_numeric_identifiers none (some " ") none true _ hex rfl).1
    " " rfl (by decide)

/-! ### Claim C6: totality of get_ticker -/

theorem optTruthy_some (o : Option String) (h : optTruthy o = true) :
    ∃ s, o = some s ∧ s ≠ "" := by
  cases o with
  | none => simp [optTruthy] at h
  | some s =>
    refine ⟨s, rfl, ?_⟩
    simpa [optTruthy] using h

theorem splitWsAux_eq_nil (l : List Char) :
    ∀ acc, splitWsAux l acc = [] → acc = [] ∧ ∀ c ∈ l, c.isWhitespace = true := by
  induction l with
  | nil =>
    intro acc h
    cases acc with
    | nil => exact ⟨rfl, by simp⟩
    | cons a t => simp [splitWsAux] at h
  | cons c rest ih =>
    intro acc h
    simp only [splitWsAux] at h
    by_cases hws : c.isWhitespace = true
    · rw [if_pos hws] at h
      cases acc with
      | nil =>
        simp only [List.isEmpty_nil, if_true] at h
        obtain ⟨-, hrest⟩ := ih [] h
        refine ⟨rfl, ?_⟩
        intro x hx
        rcases List.mem_cons.mp hx with hx1 | hx2
        · rw [hx1]; exact hws
        · exact hrest x hx2
      | cons a t => simp at h
    · rw [if_neg hws] at h
      obtain ⟨habs, -⟩ := ih (c :: acc) h
      exact absurd habs (by simp)

theorem toUpper_preserves_ws (c : Char) (h : c.isWhitespace = true) :
    c.toUpper.isWhitespace = true := by
  have hc : ((c = ' ' ∨ c = '\t') ∨ c = '\x0d') ∨ c = '\n' := by
    simpa [Char.isWhitespace] using h
  rcases hc with ((rfl | rfl) | rfl) | rfl <;> decide

theorem stripWith_eq_nil (l : List Char) (h : ∀ c ∈ l, Char.isWhitespace c = true) :
    stripWith Char.isWhitespace l = [] := by
  have h1 : l.dropWhile Char.isWhitespace = [] := by
    induction l with
    | nil => rfl
    | cons c t ih =>
      rw [List.dropWhile_cons, if_pos (h c (List.mem_cons_self _ _))]
      exact ih (fun x hx => h x (List.mem_cons_of_mem _ hx))
  unfold stripWith
  rw [h1]
  rfl

theorem pyStripUpper_empty (s : String) (h : ∀ c ∈ s.data, Char.isWhitespace c = true) :
    pyStrip (pyUpper s) = "" := by
  have h2 : ∀ c ∈ s.data.map Char.toUpper, Char.isWhitespace c = true := by
    intro c hc
    obtain ⟨a, ha, rfl⟩ := List.mem_map.mp hc
    exact toUpper_preserves_ws a (h a ha)
  show (⟨stripWith Char.isWhitespace (s.data.map Char.toUpper)⟩ : String) = ""
  rw [stripWith_eq_nil _ h2]

theorem normalizeTicker_empty (s : String) (h : pyStrip (pyUpper s) = "") :
    normalizeTickerName s = "" := by
  unfold normalizeTickerName
  rw [h]
  decide

/-- A non-empty, all-whitespace stock name normalises to `""`, and the
empty string is a Python substring of every mapping key, so the loose scan
returns the first table entry. -/
theorem gtfn_whitespace (s : String) (hne : s ≠ "") (h : normalizeTickerName s = "") :
    get_ticker_from_name s = some "BANKBARODA.NS" := by
  unfold get_ticker_from_name
  rw [if_neg hne, h]
  decide

/-- C6: `get_ticker` never fails and always returns a non-empty string, for
every combination of present/absent name, ISIN and symbol — including
names that are non-empty but contain only whitespace, for which the
name-mapping fallback fires (the empty normalised name is a substring of
every key) before the crash-prone `split()[0]` branch could be reached. -/
theorem c6_get_ticker_never_fails (stock_name isin symbol : Option String) :
    ∃ t, get_ticker stock_name isin symbol = some t ∧ t ≠ "" := by
  have hNS : (".NS" : String).data ≠ [] := by decide
  unfold get_ticker
  by_cases h1 : (optTruthy symbol &&
      (pyIn ".NS" (symbol.getD "") || pyIn ".BO" (symbol.getD ""))) = true
  · rw [if_pos h1]
    obtain ⟨s, hs, hne⟩ := optTruthy_some symbol ((Bool.and_eq_true _ _).mp h1).1
    exact ⟨s, by rw [hs], hne⟩
  · rw [if_neg h1]
    by_cases h2 : optTruthy (tickerStep2 isin) = true
    · rw [if_pos h2]
      exact optTruthy_some _ h2
    · rw [if_neg h2]
      by_cases h3 : optTruthy (tickerStep3 stock_name) = true
      · rw [if_pos h3]
        exact optTruthy_some _ h3
      · rw [if_neg h3]
        by_cases h4 : optTruthy symbol = true
        · rw [if_pos h4]
          exact ⟨_, rfl, append_ne_empty_right _ _ hNS⟩
        · rw [if_neg h4]
          by_cases h5 : optTruthy stock_name = true
          · rw [if_pos h5]
            obtain ⟨nm, hnm, hnmne⟩ := optTruthy_some _ h5
            subst hnm
            cases hsp : pySplitWs ((some nm).getD "") with
            | nil =>
              exfalso
              apply h3
              have hs0 : splitWsAux nm.data [] = [] := by
                have hsp2 : pySplitWs nm = [] := by simpa [Option.getD] using hsp
                simpa [pySplitWs] using hsp2
              have hws := (splitWsAux_eq_nil nm.data [] hs0).2
              have hnorm := normalizeTicker_empty nm (pyStripUpper_empty nm hws)
              have hgt := gtfn_whitespace nm hnmne hnorm
              simp +decide [tickerStep3, h5, hgt, optTruthy, hnmne]
            | cons w ws =>
              exact ⟨_, rfl, append_ne_empty_right _ _ hNS⟩
          · rw [if_neg h5]
            exact ⟨"UNKNOWN.NS", rfl, by decide⟩

end XFIN
